import Mathlib

/-!
Verification development for the Drug Development Research Explorer proxy.

The repository's decision logic lives in one route handler file containing
`buildQueryURL` (the Query Builder) and `POST` (the Search Proxy).  This file
gives a shallow embedding of those two functions and proves the spec's claims
about them.

Modelling conventions:
* JavaScript strings are Lean `String`s; `undefined`/absent fields are `Option`.
* `new Date().getFullYear()` is passed as an explicit `currentYear : Int`
  parameter, the only time dependence of the code.
* The WHATWG `URL` object is modelled structurally (`URLModel`), as a base and
  an ordered association list of decoded search parameters;
  `URLSearchParams.set` replaces an existing key in place or appends.
* JSON values are the inductive `JVal`; `undefined` is `Option.none` around it.
* The outbound `fetch` is an oracle `URLModel → FetchResult`; a thrown
  exception anywhere is a `FetchResult.networkError` (for the fetch itself) or
  a `none` (for body-JSON parsing / absent request body), and the handler's
  try/catch maps all of them to the 500 branch.
-/

/-- Whitespace recognised by JavaScript `String.prototype.trim` and by the
whitespace skipping of `Number.parseInt` (ECMAScript WhiteSpace and
LineTerminator code points; the common representatives are modelled). -/
def isJsWs (c : Char) : Bool :=
  c = ' ' || c = '\t' || c = '\n' || c = '\r' || c = '\x0b' || c = '\x0c' ||
  c = '\u00A0' || c = '\uFEFF' || c = '\u1680' || c = '\u2028' || c = '\u2029' ||
  c = '\u3000'

/-- List-level trim used by `jsTrim`. -/
def jsTrimList (l : List Char) : List Char :=
  ((l.dropWhile isJsWs).reverse.dropWhile isJsWs).reverse

/-- JavaScript `s.trim()`. -/
def jsTrim (s : String) : String :=
  String.mk (jsTrimList s.data)

/-- Value of the longest leading run of decimal digits, `none` when there is
no leading digit (`Number.parseInt` returns `NaN` then). -/
def decDigitsVal (l : List Char) : Option Nat :=
  let ds := l.takeWhile Char.isDigit
  if ds.isEmpty then none
  else some (ds.foldl (fun a c => a * 10 + (c.toNat - 48)) 0)

/-- JavaScript `Number.parseInt(s, 10)`: skip leading whitespace, read an
optional sign, then the longest run of decimal digits; `none` models `NaN`. -/
def jsParseInt (s : String) : Option Int :=
  match s.data.dropWhile isJsWs with
  | '-' :: rest => (decDigitsVal rest).map (fun n => -(n : Int))
  | '+' :: rest => (decDigitsVal rest).map (fun n => (n : Int))
  | rest => (decDigitsVal rest).map (fun n => (n : Int))

/-- JSON values, the shape of request/response bodies. -/
inductive JVal where
  | jnull : JVal
  | jbool : Bool → JVal
  | jnum : Int → JVal
  | jstr : String → JVal
  | jarr : List JVal → JVal
  | jobj : List (String × JVal) → JVal

/-- First-match association lookup. -/
def lookupKV {α : Type} : List (String × α) → String → Option α
  | [], _ => none
  | kv :: rest, k => if kv.1 = k then some kv.2 else lookupKV rest k

/-- JavaScript property access `j.k` on a JSON value that is not
`null`/`undefined`: an object field when present, otherwise `undefined`
(`none`).  Access on `null` throws and is handled separately in `POST`. -/
def jsGetField : JVal → String → Option JVal
  | .jobj fs, k => lookupKV fs k
  | _, _ => none

/-- Endpoint constant `SEMANTIC_SCHOLAR_ENDPOINT` from the route file. -/
def SEMANTIC_SCHOLAR_ENDPOINT : String :=
  "https://api.semanticscholar.org/graph/v1/paper/search"

/-- Constant `DEFAULT_LIMIT` from the route file. -/
def DEFAULT_LIMIT : Nat := 15

/-- Structural model of a WHATWG URL: base plus ordered search parameters,
parameter values stored decoded (as `URLSearchParams` holds them). -/
structure URLModel where
  base : String
  params : List (String × String)
deriving DecidableEq

/-- Model of `URLSearchParams.set`: replace the value of an existing key in
place, or append the pair at the end. -/
def setKV : List (String × String) → String → String → List (String × String)
  | [], k, v => [(k, v)]
  | kv :: rest, k, v =>
      if kv.1 = k then (k, v) :: rest else kv :: setKV rest k v

/-- Apply `setKV` to a URL's parameter list (`url.searchParams.set(k, v)`). -/
def setParam (u : URLModel) (k v : String) : URLModel :=
  ⟨u.base, setKV u.params k v⟩

/-- Read a search parameter's (decoded) value. -/
def getParam (u : URLModel) (k : String) : Option String :=
  lookupKV u.params k

/-- Argument object of `buildQueryURL` (`query`, `startYear?`, `endYear?`,
`publicationType?`); optional numbers are finite integers or absent. -/
structure BuildArgs where
  query : String
  startYear : Option Int
  endYear : Option Int
  publicationType : Option String
deriving DecidableEq

/-- JavaScript truthiness of an optional finite number: `undefined` and `0`
(also `-0`) are falsy. -/
def numTruthy : Option Int → Bool
  | none => false
  | some n => !(n = 0 : Bool)

/-- JavaScript truthiness of an optional string: `undefined` and `""` are
falsy. -/
def strTruthy : Option String → Bool
  | none => false
  | some s => !s.isEmpty

/-- The `filters` array built inside `buildQueryURL`: a year-range pair when
`startYear || endYear` is truthy (missing bounds default via `?? 1900` and
`?? currentYear`), then a `publicationTypes:` clause when `publicationType`
is truthy. -/
def buildFilters (currentYear : Int) (a : BuildArgs) : List String :=
  let yearPart : List String :=
    if numTruthy a.startYear || numTruthy a.endYear then
      ["year>=" ++ toString (a.startYear.getD 1900),
       "year<=" ++ toString (a.endYear.getD currentYear)]
    else []
  let pubPart : List String :=
    if strTruthy a.publicationType then
      ["publicationTypes:" ++ a.publicationType.getD ""]
    else []
  yearPart ++ pubPart

/-- Comma join of `Array.prototype.join(',')`: empty gives the empty string,
otherwise the elements separated by single commas. -/
def joinComma : List String → String
  | [] => ""
  | [x] => x
  | x :: y :: rest => x ++ "," ++ joinComma (y :: rest)

/-- The Query Builder `buildQueryURL`, with `new Date().getFullYear()`
supplied as the explicit `currentYear` parameter.  Sets `query`, `limit`,
`fields` and, when the filters array is non-empty, `filter`. -/
def buildQueryURL (currentYear : Int) (a : BuildArgs) : URLModel :=
  let u : URLModel := ⟨SEMANTIC_SCHOLAR_ENDPOINT, []⟩
  let u := setParam u "query" a.query
  let u := setParam u "limit" (toString DEFAULT_LIMIT)
  let u := setParam u "fields"
    "title,abstract,year,authors,venue,url,publicationTypes,journal"
  let fs := buildFilters currentYear a
  if fs.length > 0 then setParam u "filter" (joinComma fs) else u

/-- Inbound JSON payload after destructuring: each field a string or absent. -/
structure Payload where
  query : Option String
  startYear : Option String
  endYear : Option String
  publicationType : Option String
deriving DecidableEq

/-- Model of `startYear ? Number.parseInt(startYear, 10) : undefined` followed
by `Number.isFinite(x) ? x : undefined`: falsy (absent or empty) input gives
`undefined`, a `NaN` parse is dropped to `undefined`. -/
def parsedYear : Option String → Option Int
  | none => none
  | some s => if s.isEmpty then none else jsParseInt s

/-- Model of `publicationType?.trim()` narrowed by
`sanitizedPublicationType ? sanitizedPublicationType : undefined`. -/
def pubArg : Option String → Option String
  | none => none
  | some s =>
      let t := jsTrim s
      if t.isEmpty then none else some t

/-- The argument object the handler passes to `buildQueryURL`. -/
def argsOfPayload (p : Payload) : BuildArgs :=
  ⟨jsTrim (p.query.getD ""), parsedYear p.startYear, parsedYear p.endYear,
   pubArg p.publicationType⟩

/-- The provider URL the handler builds for a (validated) payload. -/
def postURL (currentYear : Int) (p : Payload) : URLModel :=
  buildQueryURL currentYear (argsOfPayload p)

/-- Outcome of the outbound `fetch`: a thrown error, or a response with a
status, a raw body text, and the body's JSON parse (`none` when
`response.json()` would throw). -/
inductive FetchResult where
  | networkError : FetchResult
  | response : Nat → String → Option JVal → FetchResult

/-- The `response.ok` predicate: status in the range 200–299. -/
def respOk (status : Nat) : Bool := 200 ≤ status && status ≤ 299

/-- An HTTP response returned to the client: status and JSON body. -/
structure HttpOut where
  status : Nat
  body : JVal

/-- Server-side log entries: `console.error` on provider failure (with the
provider's status and body text) and in the catch-all handler. -/
inductive LogEntry where
  | providerFailure : Nat → String → LogEntry
  | caughtError : LogEntry

/-- Observable outcome of one `POST` invocation: the client response, the
list of outbound provider calls made, and the server-side log. -/
structure PostResult where
  response : HttpOut
  calls : List URLModel
  log : List LogEntry

/-- A JSON error body, as built by `NextResponse.json(\x7b error: msg \x7d)`. -/
def errBody (msg : String) : JVal := .jobj [("error", .jstr msg)]

/-- The validation test `!query || !query.trim()`. -/
def queryMissing (p : Payload) : Bool :=
  match p.query with
  | none => true
  | some s => s.isEmpty || (jsTrim s).isEmpty

/-- One field of a serialised JSON object; an `undefined` value is dropped,
as `JSON.stringify` drops it. -/
def optField (k : String) : Option JVal → List (String × JVal)
  | none => []
  | some v => [(k, v)]

/-- The success body `\x7b papers: data.data, total: data.total \x7d`: property
access on a `null` JSON body throws (`none`), otherwise missing fields are
`undefined` and are dropped from the serialised object. -/
def shapeSuccess (j : JVal) : Option JVal :=
  match j with
  | .jnull => none
  | j => some (.jobj (optField "papers" (jsGetField j "data") ++
                      optField "total" (jsGetField j "total")))

/-- The route handler `POST`.  `req` is the parsed request body (`none` when
`request.json()` throws); `provider` is the `fetch` oracle.  The outer
try/catch maps every thrown error to status 500. -/
def POST (currentYear : Int) (req : Option Payload)
    (provider : URLModel → FetchResult) : PostResult :=
  match req with
  | none => ⟨⟨500, errBody "Unexpected server error."⟩, [], [.caughtError]⟩
  | some p =>
    if queryMissing p then
      ⟨⟨400, errBody "Query is required."⟩, [], []⟩
    else
      let url := postURL currentYear p
      match provider url with
      | .networkError =>
          ⟨⟨500, errBody "Unexpected server error."⟩, [url], [.caughtError]⟩
      | .response st text mj =>
          if respOk st then
            match mj with
            | none =>
                ⟨⟨500, errBody "Unexpected server error."⟩, [url],
                 [.caughtError]⟩
            | some j =>
                match shapeSuccess j with
                | none =>
                    ⟨⟨500, errBody "Unexpected server error."⟩, [url],
                     [.caughtError]⟩
                | some body => ⟨⟨200, body⟩, [url], []⟩
          else
            ⟨⟨502, errBody "Failed to retrieve research papers."⟩, [url],
             [.providerFailure st text]⟩

/-- Hexadecimal digit character for a value below 16 (uppercase, as
percent-encoding emits). -/
def hexDigitChar (n : Nat) : Char :=
  if n < 10 then Char.ofNat (48 + n) else Char.ofNat (55 + n)

/-- Value of a hexadecimal digit character, either case. -/
def hexVal (c : Char) : Option Nat :=
  if 48 ≤ c.toNat ∧ c.toNat ≤ 57 then some (c.toNat - 48)
  else if 65 ≤ c.toNat ∧ c.toNat ≤ 70 then some (c.toNat - 55)
  else if 97 ≤ c.toNat ∧ c.toNat ≤ 102 then some (c.toNat - 87)
  else none

/-- UTF-8 encoding of a unicode code point as a byte list. -/
def utf8Enc (n : Nat) : List Nat :=
  if n < 128 then [n]
  else if n < 2048 then [192 + n / 64, 128 + n % 64]
  else if n < 65536 then [224 + n / 4096, 128 + n / 64 % 64, 128 + n % 64]
  else [240 + n / 262144, 128 + n / 4096 % 64, 128 + n / 64 % 64, 128 + n % 64]

/-- Decode one UTF-8 code point from the front of a byte list, returning the
point and the remaining bytes. -/
def utf8DecOne : List Nat → Option (Nat × List Nat)
  | [] => none
  | b :: rest =>
    if b < 128 then some (b, rest)
    else if b < 192 then none
    else if b < 224 then
      match rest with
      | b2 :: rest2 =>
          if 128 ≤ b2 ∧ b2 < 192 then
            some ((b - 192) * 64 + (b2 - 128), rest2)
          else none
      | [] => none
    else if b < 240 then
      match rest with
      | b2 :: b3 :: rest3 =>
          if (128 ≤ b2 ∧ b2 < 192) ∧ (128 ≤ b3 ∧ b3 < 192) then
            some ((b - 224) * 4096 + (b2 - 128) * 64 + (b3 - 128), rest3)
          else none
      | _ => none
    else if b < 248 then
      match rest with
      | b2 :: b3 :: b4 :: rest4 =>
          if (128 ≤ b2 ∧ b2 < 192) ∧ (128 ≤ b3 ∧ b3 < 192) ∧
             (128 ≤ b4 ∧ b4 < 192) then
            some ((b - 240) * 262144 + (b2 - 128) * 4096 + (b3 - 128) * 64 +
                    (b4 - 128), rest4)
          else none
      | _ => none
    else none

/-- Characters percent-encoding leaves as-is (RFC 3986 unreserved set):
ASCII letters, digits, and `-._~`. -/
def isUnreservedChar (c : Char) : Bool :=
  (65 ≤ c.toNat && c.toNat ≤ 90) || (97 ≤ c.toNat && c.toNat ≤ 122) ||
  (48 ≤ c.toNat && c.toNat ≤ 57) || c.toNat = 45 || c.toNat = 46 ||
  c.toNat = 95 || c.toNat = 126

/-- Percent-encoding of one byte: `%` plus two hex digits. -/
def encByte (b : Nat) : List Char :=
  ['%', hexDigitChar (b / 16), hexDigitChar (b % 16)]

/-- Percent-encoding of one character: kept verbatim when unreserved,
otherwise each UTF-8 byte is percent-encoded. -/
def encodeChar (c : Char) : List Char :=
  if isUnreservedChar c then [c] else ((utf8Enc c.toNat).map encByte).flatten

/-- Standard URL encoding of a string, as the WHATWG URL serialiser applies
to search-parameter values. -/
def urlEncode (s : String) : String :=
  String.mk ((s.data.map encodeChar).flatten)

/-- Percent-decoding to a byte list: `%xy` becomes one byte, any other
character stands for its own (ASCII) code. -/
def pctDecodeBytes : List Char → Option (List Nat)
  | [] => some []
  | c :: rest =>
      if c = '%' then
        match rest with
        | h1 :: h2 :: rest2 =>
            match hexVal h1, hexVal h2 with
            | some a, some b =>
                (pctDecodeBytes rest2).map (fun bs => (16 * a + b) :: bs)
            | _, _ => none
        | _ => none
      else (pctDecodeBytes rest).map (fun bs => c.toNat :: bs)

/-- Fuelled UTF-8 decoding of a whole byte list into code points. -/
def utf8DecList : Nat → List Nat → Option (List Nat)
  | _, [] => some []
  | 0, _ :: _ => none
  | fuel + 1, b :: bs =>
      match utf8DecOne (b :: bs) with
      | none => none
      | some nr => (utf8DecList fuel nr.2).map (fun ns => nr.1 :: ns)

/-- URL decoding: percent-decode to bytes, then UTF-8 decode to characters. -/
def urlDecode (s : String) : Option String :=
  (pctDecodeBytes s.data).bind (fun bs =>
    (utf8DecList bs.length bs).map (fun cps => String.mk (cps.map Char.ofNat)))

/-- Serialisation `url.toString()`: base, then `?` and the `&`-joined
parameters with percent-encoded values. -/
def urlToString (u : URLModel) : String :=
  if u.params.isEmpty then u.base
  else
    u.base ++ "?" ++
      String.intercalate "&"
        (u.params.map (fun kv => kv.1 ++ "=" ++ urlEncode kv.2))

/-- UTF-8 bytes of one character. -/
def charBytes (c : Char) : List Nat := utf8Enc c.toNat

/-- UTF-8 bytes of a character list. -/
def strBytes (l : List Char) : List Nat := (l.map charBytes).flatten

/-- Every character's code point is below the unicode bound. -/
theorem char_toNat_lt_unicode (c : Char) : c.toNat < 1114112 := by
  show c.val.toNat < 1114112
  rcases c.valid with h | ⟨h1, h2⟩ <;> omega

/-- UTF-8 encoding of a valid code point yields bytes below 256. -/
theorem utf8Enc_lt (n : Nat) (h : n < 1114112) : ∀ b ∈ utf8Enc n, b < 256 := by
  intro b hb
  unfold utf8Enc at hb
  split at hb
  · simp at hb; omega
  · split at hb
    · simp at hb; rcases hb with hb | hb <;> omega
    · split at hb
      · simp at hb; rcases hb with hb | hb | hb <;> omega
      · simp at hb; rcases hb with hb | hb | hb | hb <;> omega

/-- UTF-8 encoding never yields the empty byte list. -/
theorem utf8Enc_ne_nil (n : Nat) : utf8Enc n ≠ [] := by
  by_cases h1 : n < 128 <;> by_cases h2 : n < 2048 <;>
    by_cases h3 : n < 65536 <;> simp [utf8Enc, h1, h2, h3]

/-- Decoding inverts the one-code-point UTF-8 encoder. -/
theorem utf8DecOne_enc (n : Nat) (h : n < 1114112) (tl : List Nat) :
    utf8DecOne (utf8Enc n ++ tl) = some (n, tl) := by
  by_cases h1 : n < 128
  · simp [utf8Enc, utf8DecOne, h1]
  · by_cases h2 : n < 2048
    · have e1 : ¬ (192 + n / 64 < 128) := by omega
      have e2 : ¬ (192 + n / 64 < 192) := by omega
      have e3 : 192 + n / 64 < 224 := by omega
      have e4 : 128 ≤ 128 + n % 64 ∧ 128 + n % 64 < 192 := by omega
      simp [utf8Enc, utf8DecOne, h1, h2, e1, e2, e3, e4]
      omega
    · by_cases h3 : n < 65536
      · have e1 : ¬ (224 + n / 4096 < 128) := by omega
        have e2 : ¬ (224 + n / 4096 < 192) := by omega
        have e3 : ¬ (224 + n / 4096 < 224) := by omega
        have e4 : 224 + n / 4096 < 240 := by omega
        have e5 : (128 ≤ 128 + n / 64 % 64 ∧ 128 + n / 64 % 64 < 192) ∧
            128 ≤ 128 + n % 64 ∧ 128 + n % 64 < 192 := by omega
        simp [utf8Enc, utf8DecOne, h1, h2, h3, e1, e2, e3, e4, e5]
        omega
      · have e1 : ¬ (240 + n / 262144 < 128) := by omega
        have e2 : ¬ (240 + n / 262144 < 192) := by omega
        have e3 : ¬ (240 + n / 262144 < 224) := by omega
        have e4 : ¬ (240 + n / 262144 < 240) := by omega
        have e5 : 240 + n / 262144 < 248 := by omega
        have e6 : (128 ≤ 128 + n / 4096 % 64 ∧ 128 + n / 4096 % 64 < 192) ∧
            (128 ≤ 128 + n / 64 % 64 ∧ 128 + n / 64 % 64 < 192) ∧
            128 ≤ 128 + n % 64 ∧ 128 + n % 64 < 192 := by omega
        simp [utf8Enc, utf8DecOne, h1, h2, h3, e1, e2, e3, e4, e5, e6]
        omega

/-- Hex digits emitted by `hexDigitChar` decode back to their value. -/
theorem hexVal_hexDigitChar : ∀ n, n < 16 → hexVal (hexDigitChar n) = some n := by
  decide

/-- An unreserved character is ASCII and is not the percent sign (code 37). -/
theorem unreserved_facts {c : Char} (h : isUnreservedChar c = true) :
    c.toNat < 128 ∧ c.toNat ≠ 37 := by
  simp [isUnreservedChar] at h
  omega

/-- Percent-decoding inverts the single-byte encoder. -/
theorem pctDecodeBytes_encByte (b : Nat) (hb : b < 256) (rest : List Char) :
    pctDecodeBytes (encByte b ++ rest) =
      (pctDecodeBytes rest).map (fun bs => b :: bs) := by
  have h1 := hexVal_hexDigitChar (b / 16) (by omega)
  have h2 := hexVal_hexDigitChar (b % 16) (by omega)
  simp [encByte, pctDecodeBytes, h1, h2]
  have hb16 : 16 * (b / 16) + b % 16 = b := by omega
  rw [hb16]

/-- Percent-decoding inverts the encoder over a byte list. -/
theorem pctDecodeBytes_encBytesList (bs : List Nat) (h : ∀ b ∈ bs, b < 256)
    (rest : List Char) :
    pctDecodeBytes ((bs.map encByte).flatten ++ rest) =
      (pctDecodeBytes rest).map (fun t => bs ++ t) := by
  induction bs with
  | nil =>
      cases hr : pctDecodeBytes rest <;> simp [hr]
  | cons b bs ih =>
      have hb : b < 256 := h b (List.mem_cons_self _ _)
      have hrec := ih (fun x hx => h x (List.mem_cons_of_mem _ hx))
      simp only [List.map_cons, List.flatten_cons, List.append_assoc]
      rw [pctDecodeBytes_encByte b hb, hrec]
      cases pctDecodeBytes rest <;> simp

/-- Percent-decoding the encoded character list recovers the UTF-8 bytes. -/
theorem pctDecodeBytes_encodeList (l : List Char) :
    pctDecodeBytes ((l.map encodeChar).flatten) = some (strBytes l) := by
  induction l with
  | nil => simp [strBytes, pctDecodeBytes]
  | cons c l ih =>
      by_cases hc : isUnreservedChar c
      · obtain ⟨hlt, hne⟩ := unreserved_facts hc
        have hb : charBytes c = [c.toNat] := by simp [charBytes, utf8Enc, hlt]
        have hpct : ¬ (c = '%') := by
          intro he
          apply hne
          rw [he]
          rfl
        have hcons : (((c :: l).map encodeChar).flatten) =
            c :: (l.map encodeChar).flatten := by
          simp [encodeChar, hc]
        rw [hcons]
        have hstep : pctDecodeBytes (c :: (l.map encodeChar).flatten) =
            (pctDecodeBytes ((l.map encodeChar).flatten)).map
              (fun bs => c.toNat :: bs) := by
          rw [pctDecodeBytes.eq_def]
          simp [hpct]
        rw [hstep, ih]
        simp [strBytes, hb]
      · have hbytes := utf8Enc_lt c.toNat (char_toNat_lt_unicode c)
        have hstep := pctDecodeBytes_encBytesList (utf8Enc c.toNat) hbytes
          ((l.map encodeChar).flatten)
        simp only [encodeChar, hc, if_false, List.map_cons, List.flatten_cons,
          Bool.false_eq_true]
        rw [hstep, ih]
        simp [strBytes, charBytes]

/-- UTF-8 decoding with sufficient fuel recovers the code points of the
encoded character list. -/
theorem utf8DecList_strBytes (l : List Char) :
    ∀ fuel : Nat, (strBytes l).length ≤ fuel →
      utf8DecList fuel (strBytes l) = some (l.map Char.toNat) := by
  induction l with
  | nil =>
      intro fuel _
      simp [strBytes, utf8DecList]
  | cons c l ih =>
      intro fuel hf
      have hsb : strBytes (c :: l) = utf8Enc c.toNat ++ strBytes l := by
        simp [strBytes, charBytes]
      have hne := utf8Enc_ne_nil c.toNat
      have hpos : 0 < (utf8Enc c.toNat).length := List.length_pos.mpr hne
      rw [hsb] at hf ⊢
      cases fuel with
      | zero =>
          exfalso
          rw [List.length_append] at hf
          omega
      | succ f =>
          cases hE : utf8Enc c.toNat ++ strBytes l with
          | nil =>
              exfalso
              exact hne (List.append_eq_nil.mp hE).1
          | cons b bs =>
              have hdec : utf8DecOne (b :: bs) = some (c.toNat, strBytes l) := by
                rw [← hE]
                exact utf8DecOne_enc c.toNat (char_toNat_lt_unicode c) _
              have hfl : (strBytes l).length ≤ f := by
                rw [List.length_append] at hf
                omega
              rw [← hE]
              rw [hE]
              simp only [utf8DecList, hdec]
              rw [ih f hfl]
              rfl

/-- URL decoding inverts URL encoding on every string. -/
theorem urlDecode_urlEncode (s : String) : urlDecode (urlEncode s) = some s := by
  obtain ⟨l⟩ := s
  have hd : (String.mk ((l.map encodeChar).flatten)).data =
      (l.map encodeChar).flatten := rfl
  unfold urlEncode urlDecode
  rw [hd, pctDecodeBytes_encodeList l]
  rw [Option.some_bind]
  rw [utf8DecList_strBytes l (strBytes l).length (Nat.le_refl _)]
  simp only [Option.map_some']
  refine congrArg some (congrArg String.mk ?_)
  rw [List.map_map]
  simp [Function.comp_def]

/-- Classifier for year clauses inside a filter expression: clauses the
Query Builder emits for the year range begin with `year`, the
publication-type clause does not. -/
def isYearClause (s : String) : Bool := "year".data.isPrefixOf s.data

/-- Clauses of the form `year>=<v>` are year clauses. -/
theorem isYearClause_ge (t : String) : isYearClause ("year>=" ++ t) = true := by
  obtain ⟨l⟩ := t
  rfl

/-- Clauses of the form `year<=<v>` are year clauses. -/
theorem isYearClause_le (t : String) : isYearClause ("year<=" ++ t) = true := by
  obtain ⟨l⟩ := t
  rfl

/-- The publication-type clause is not a year clause. -/
theorem isYearClause_pub (t : String) :
    isYearClause ("publicationTypes:" ++ t) = false := by
  obtain ⟨l⟩ := t
  rfl

/-- C1 (counterexample).  The claim says the year clauses are emitted iff at
least one of `startYear`/`endYear` is present.  With `startYear` present and
equal to `0` (reachable from the inbound string `"0"`) and `endYear` absent,
the JS truthiness test `startYear || endYear` is false and no year clause is
emitted, so the claim's "if" direction fails. -/
theorem c1_year_presence_counterexample :
    (some (0 : Int)).isSome = true ∧
    buildFilters 2025 ⟨"cancer", some 0, none, none⟩ = [] ∧
    getParam (buildQueryURL 2025 ⟨"cancer", some 0, none, none⟩) "filter" =
      none := by
  refine ⟨rfl, rfl, ?_⟩
  rfl

/-- C1 (amended).  The year filter clauses are emitted iff at least one of
`startYear`/`endYear` is present and nonzero (JS truthiness); when emitted
they are exactly `year>=<start>` and `year<=<end>`, a missing `startYear`
defaulting to 1900 and a missing `endYear` to the current calendar year. -/
theorem c1_year_filter_amended (cy : Int) (a : BuildArgs) :
    ((numTruthy a.startYear || numTruthy a.endYear) = true →
      (buildFilters cy a).filter isYearClause =
        ["year>=" ++ toString (a.startYear.getD 1900),
         "year<=" ++ toString (a.endYear.getD cy)]) ∧
    ((numTruthy a.startYear || numTruthy a.endYear) = false →
      (buildFilters cy a).filter isYearClause = []) := by
  constructor <;> intro h
  · by_cases hp : strTruthy a.publicationType <;>
      simp [buildFilters, h, hp, List.filter_append, isYearClause_ge,
        isYearClause_le, isYearClause_pub]
  · by_cases hp : strTruthy a.publicationType <;>
      simp [buildFilters, h, hp, List.filter_append, isYearClause_pub]

/-- C1 (witness).  At `startYear = 2010` alone the amended theorem yields the
clause pair `year>=2010`, `year<=<current year>`. -/
theorem c1_year_filter_amended_witness :
    (buildFilters 2025 ⟨"flu", some 2010, none, none⟩).filter isYearClause =
      ["year>=2010", "year<=2025"] :=
  ((c1_year_filter_amended 2025 ⟨"flu", some 2010, none, none⟩).1
    (by decide)).trans (by decide)

/-- C2 (confirmed).  A payload whose `query` is absent, empty, or
all-whitespace after trimming gets status 400 with body
`error: Query is required.`, and no outbound provider call is recorded. -/
theorem c2_empty_query_rejected (cy : Int) (provider : URLModel → FetchResult)
    (p : Payload)
    (h : p.query = none ∨ ∃ s, p.query = some s ∧ jsTrim s = "") :
    (POST cy (some p) provider).response.status = 400 ∧
    (POST cy (some p) provider).response.body = errBody "Query is required." ∧
    (POST cy (some p) provider).calls = [] := by
  have hqm : queryMissing p = true := by
    rcases h with h | ⟨s, hs, ht⟩
    · simp [queryMissing, h]
    · simp [queryMissing, hs, ht]
      exact Or.inr rfl
  simp [POST, hqm]

/-- C2 (witness).  An all-whitespace query is rejected with 400 and zero
provider calls. -/
theorem c2_empty_query_rejected_witness :
    (POST 2025 (some ⟨some "   ", none, none, none⟩)
        (fun _ => FetchResult.networkError)).response.status = 400 ∧
    (POST 2025 (some ⟨some "   ", none, none, none⟩)
        (fun _ => FetchResult.networkError)).response.body =
      errBody "Query is required." ∧
    (POST 2025 (some ⟨some "   ", none, none, none⟩)
        (fun _ => FetchResult.networkError)).calls = [] :=
  c2_empty_query_rejected 2025 (fun _ => FetchResult.networkError)
    ⟨some "   ", none, none, none⟩ (Or.inr ⟨"   ", rfl, by decide⟩)

/-- C3 (confirmed).  A 2xx provider response whose JSON body is
`data: ds, total: t` is relayed as status 200 with body
`papers: ds, total: t`, the array unmodified. -/
theorem c3_success_relay (cy : Int) (p : Payload)
    (provider : URLModel → FetchResult) (ds : List JVal) (t : JVal)
    (st : Nat) (text : String)
    (hq : queryMissing p = false)
    (hr : provider (postURL cy p) =
      .response st text (some (.jobj [("data", .jarr ds), ("total", t)])))
    (hst : respOk st = true) :
    (POST cy (some p) provider).response.status = 200 ∧
    (POST cy (some p) provider).response.body =
      .jobj [("papers", .jarr ds), ("total", t)] := by
  simp [POST, hq, hr, hst, shapeSuccess, jsGetField, lookupKV, optField]

/-- C3 (witness).  A concrete provider body `data: ["x"], total: 42` is
relayed as `papers: ["x"], total: 42` with status 200. -/
theorem c3_success_relay_witness :
    (POST 2025 (some ⟨some "statin", none, none, none⟩)
        (fun _ => FetchResult.response 200 "ok"
          (some (.jobj [("data", .jarr [.jstr "x"]),
                        ("total", .jnum 42)])))).response.status = 200 ∧
    (POST 2025 (some ⟨some "statin", none, none, none⟩)
        (fun _ => FetchResult.response 200 "ok"
          (some (.jobj [("data", .jarr [.jstr "x"]),
                        ("total", .jnum 42)])))).response.body =
      .jobj [("papers", .jarr [.jstr "x"]), ("total", .jnum 42)] :=
  c3_success_relay 2025 ⟨some "statin", none, none, none⟩
    (fun _ => FetchResult.response 200 "ok"
      (some (.jobj [("data", .jarr [.jstr "x"]), ("total", .jnum 42)])))
    [.jstr "x"] (.jnum 42) 200 "ok" (by decide) rfl (by decide)

/-- C4 (confirmed).  A non-success provider status yields status 502 with the
fixed body `error: Failed to retrieve research papers.` for every provider
body and parse outcome; the provider's status and body text go only to the
server-side log. -/
theorem c4_provider_failure_502 (cy : Int) (p : Payload)
    (provider : URLModel → FetchResult) (st : Nat) (text : String)
    (mj : Option JVal)
    (hq : queryMissing p = false)
    (hr : provider (postURL cy p) = .response st text mj)
    (hst : respOk st = false) :
    (POST cy (some p) provider).response.status = 502 ∧
    (POST cy (some p) provider).response.body =
      errBody "Failed to retrieve research papers." ∧
    (POST cy (some p) provider).log = [.providerFailure st text] ∧
    (POST cy (some p) provider).calls = [postURL cy p] := by
  simp [POST, hq, hr, hst]

/-- C4 (witness).  A 503 provider response with an arbitrary body becomes a
502 with the generic message, the 503 and the body appearing in the log. -/
theorem c4_provider_failure_502_witness :
    (POST 2025 (some ⟨some "insulin", none, none, none⟩)
        (fun _ => FetchResult.response 503 "secret detail" none)).response.status =
      502 ∧
    (POST 2025 (some ⟨some "insulin", none, none, none⟩)
        (fun _ => FetchResult.response 503 "secret detail" none)).response.body =
      errBody "Failed to retrieve research papers." ∧
    (POST 2025 (some ⟨some "insulin", none, none, none⟩)
        (fun _ => FetchResult.response 503 "secret detail" none)).log =
      [.providerFailure 503 "secret detail"] ∧
    (POST 2025 (some ⟨some "insulin", none, none, none⟩)
        (fun _ => FetchResult.response 503 "secret detail" none)).calls =
      [postURL 2025 ⟨some "insulin", none, none, none⟩] :=
  c4_provider_failure_502 2025 ⟨some "insulin", none, none, none⟩
    (fun _ => FetchResult.response 503 "secret detail" none) 503
    "secret detail" none (by decide) rfl (by decide)

/-- C5 (counterexample).  The claim says a provider response whose JSON lacks
`data`/`total` produces a 500.  In the code the property accesses yield
`undefined`, `JSON.stringify` drops the fields, and the response is relayed
with status 200 and an empty object body — not a 500. -/
theorem c5_schema_mismatch_counterexample :
    (POST 2025 (some ⟨some "aspirin", none, none, none⟩)
        (fun _ => FetchResult.response 200 ""
          (some (JVal.jobj [])))).response.status = 200 ∧
    ¬ ((POST 2025 (some ⟨some "aspirin", none, none, none⟩)
        (fun _ => FetchResult.response 200 ""
          (some (JVal.jobj [])))).response.status = 500) :=
  ⟨rfl, by decide⟩

/-- C5 (amended).  A request body that fails to parse, a network failure
during the outbound call, and malformed (unparseable) provider JSON are each
caught at the outermost boundary and produce status 500 with the fixed body
`error: Unexpected server error.`; a well-formed provider JSON body merely
missing `data`/`total` is instead relayed with status 200 and the fields
dropped. -/
theorem c5_unexpected_error_amended (cy : Int)
    (provider : URLModel → FetchResult) :
    ((POST cy none provider).response.status = 500 ∧
      (POST cy none provider).response.body =
        errBody "Unexpected server error.") ∧
    (∀ p : Payload, queryMissing p = false →
      provider (postURL cy p) = .networkError →
      (POST cy (some p) provider).response.status = 500 ∧
      (POST cy (some p) provider).response.body =
        errBody "Unexpected server error.") ∧
    (∀ (p : Payload) (st : Nat) (text : String), queryMissing p = false →
      provider (postURL cy p) = .response st text none →
      respOk st = true →
      (POST cy (some p) provider).response.status = 500 ∧
      (POST cy (some p) provider).response.body =
        errBody "Unexpected server error.") := by
  refine ⟨⟨rfl, rfl⟩, ?_, ?_⟩
  · intro p hq hr
    simp [POST, hq, hr]
  · intro p st text hq hr hst
    simp [POST, hq, hr, hst]

/-- C5 (witness).  The three caught cases at concrete inputs: unparseable
request body, network failure, and malformed provider JSON all give 500. -/
theorem c5_unexpected_error_amended_witness :
    (POST 2025 none (fun _ => FetchResult.networkError)).response.status =
      500 ∧
    (POST 2025 (some ⟨some "ibuprofen", none, none, none⟩)
        (fun _ => FetchResult.networkError)).response.status = 500 ∧
    (POST 2025 (some ⟨some "ibuprofen", none, none, none⟩)
        (fun _ => FetchResult.response 200 "not json" none)).response.status =
      500 :=
  ⟨(c5_unexpected_error_amended 2025 (fun _ => FetchResult.networkError)).1.1,
   ((c5_unexpected_error_amended 2025 (fun _ => FetchResult.networkError)).2.1
      ⟨some "ibuprofen", none, none, none⟩ (by decide) rfl).1,
   ((c5_unexpected_error_amended 2025
        (fun _ => FetchResult.response 200 "not json" none)).2.2
      ⟨some "ibuprofen", none, none, none⟩ 200 "not json" (by decide) rfl
      (by decide)).1⟩

/-- C6 (confirmed).  When both the year filter and the publication-type
filter are emitted, the `filter` parameter is the single comma-joined
expression with the two year clauses first and the publication-type clause
last; when neither is emitted, no `filter` parameter is attached. -/
theorem c6_filter_combination (cy : Int) (a : BuildArgs) :
    ((numTruthy a.startYear || numTruthy a.endYear) = true →
      strTruthy a.publicationType = true →
      getParam (buildQueryURL cy a) "filter" =
        some ("year>=" ++ toString (a.startYear.getD 1900) ++ "," ++
          ("year<=" ++ toString (a.endYear.getD cy)) ++ "," ++
          ("publicationTypes:" ++ a.publicationType.getD ""))) ∧
    ((numTruthy a.startYear || numTruthy a.endYear) = false →
      strTruthy a.publicationType = false →
      getParam (buildQueryURL cy a) "filter" = none) := by
  constructor <;> intro h1 h2 <;>
    simp [buildQueryURL, buildFilters, h1, h2, setParam, setKV, getParam,
      lookupKV, joinComma, String.append_assoc]

/-- C6 (witness).  With a year range and `publicationType = "Review"` the
filter parameter is `year>=2000,year<=2015,publicationTypes:Review`; with
neither filter there is no `filter` parameter. -/
theorem c6_filter_combination_witness :
    getParam (buildQueryURL 2025 ⟨"q", some 2000, some 2015, some "Review"⟩)
      "filter" = some "year>=2000,year<=2015,publicationTypes:Review" ∧
    getParam (buildQueryURL 2025 ⟨"q", none, none, none⟩) "filter" = none :=
  ⟨((c6_filter_combination 2025 ⟨"q", some 2000, some 2015, some "Review"⟩).1
      (by decide) (by decide)).trans (by decide),
   (c6_filter_combination 2025 ⟨"q", none, none, none⟩).2 (by decide)
     (by decide)⟩

/-- C7 (confirmed).  A `startYear` string that does not parse to an integer
is interchangeable with an omitted `startYear`: the whole observable outcome
of `POST` — response, outbound URL, log — is identical, with no error
surfaced. -/
theorem c7_non_numeric_year_absent (cy : Int)
    (provider : URLModel → FetchResult) (q ey pt : Option String) (s : String)
    (h : jsParseInt s = none) :
    POST cy (some ⟨q, some s, ey, pt⟩) provider =
      POST cy (some ⟨q, none, ey, pt⟩) provider := by
  have hpy : parsedYear (some s) = parsedYear none := by
    by_cases he : s.isEmpty <;> simp [parsedYear, h, he]
  have hargs : argsOfPayload ⟨q, some s, ey, pt⟩ =
      argsOfPayload ⟨q, none, ey, pt⟩ := by
    simp [argsOfPayload, hpy]
  have hurl : postURL cy ⟨q, some s, ey, pt⟩ =
      postURL cy ⟨q, none, ey, pt⟩ := by
    unfold postURL
    rw [hargs]
  have hqm : queryMissing ⟨q, some s, ey, pt⟩ =
      queryMissing ⟨q, none, ey, pt⟩ := rfl
  simp only [POST, hurl, hqm]

/-- C7 (witness).  `startYear = "abc"` behaves exactly as an omitted
`startYear` for a concrete payload and provider. -/
theorem c7_non_numeric_year_absent_witness :
    POST 2025 (some ⟨some "drug", some "abc", none, none⟩)
        (fun _ => FetchResult.networkError) =
      POST 2025 (some ⟨some "drug", none, none, none⟩)
        (fun _ => FetchResult.networkError) :=
  c7_non_numeric_year_absent 2025 (fun _ => FetchResult.networkError)
    (some "drug") none none "abc" (by decide)

/-- C8 (confirmed).  For a query with at least one non-whitespace character,
the built provider URL's `query` parameter is exactly the trimmed query; the
URL serialisation applies only percent-encoding, which URL decoding inverts;
and the URL the proxy calls is that built URL. -/
theorem c8_query_verbatim (cy : Int) (provider : URLModel → FetchResult)
    (p : Payload) (q : String) (hq : p.query = some q)
    (hne : jsTrim q ≠ "") :
    getParam (postURL cy p) "query" = some (jsTrim q) ∧
    urlDecode (urlEncode (jsTrim q)) = some (jsTrim q) ∧
    (POST cy (some p) provider).calls = [postURL cy p] := by
  have hqE : q.isEmpty = false := by
    cases hqe : q.isEmpty
    · rfl
    · exfalso
      apply hne
      rw [(String.isEmpty_iff q).mp hqe]
      rfl
  have htE : (jsTrim q).isEmpty = false := by
    cases hte : (jsTrim q).isEmpty
    · rfl
    · exact absurd ((String.isEmpty_iff _).mp hte) hne
  have hqm : queryMissing p = false := by
    simp [queryMissing, hq, hqE, htE]
  refine ⟨?_, urlDecode_urlEncode _, ?_⟩
  · have ha : (argsOfPayload p).query = jsTrim q := by
      simp [argsOfPayload, hq]
    unfold postURL buildQueryURL
    by_cases hf : (buildFilters cy (argsOfPayload p)).length > 0 <;>
      simp [hf, setParam, setKV, getParam, lookupKV, ha]
  · cases hr : provider (postURL cy p) with
    | networkError => simp [POST, hqm, hr]
    | response st text mj =>
        by_cases hst : respOk st = true
        · cases mj with
          | none => simp [POST, hqm, hr, hst]
          | some j =>
              cases hsh : shapeSuccess j with
              | none => simp [POST, hqm, hr, hst, hsh]
              | some body => simp [POST, hqm, hr, hst, hsh]
        · simp [POST, hqm, hr, hst]

/-- C8 (witness).  A concrete query with inner spaces is trimmed, placed
verbatim as the `query` parameter, survives the encode/decode round trip,
and is the URL actually called. -/
theorem c8_query_verbatim_witness :
    getParam (postURL 2025 ⟨some " covid vaccine ", none, none, none⟩)
      "query" = some (jsTrim " covid vaccine ") ∧
    urlDecode (urlEncode (jsTrim " covid vaccine ")) =
      some (jsTrim " covid vaccine ") ∧
    (POST 2025 (some ⟨some " covid vaccine ", none, none, none⟩)
        (fun _ => FetchResult.networkError)).calls =
      [postURL 2025 ⟨some " covid vaccine ", none, none, none⟩] :=
  c8_query_verbatim 2025 (fun _ => FetchResult.networkError)
    ⟨some " covid vaccine ", none, none, none⟩ " covid vaccine " rfl
    (by decide)

/-- C9 (confirmed).  The Query Builder is deterministic: its embedding is a
pure function of the argument object and the injected current year (the only
time dependence of the source), so equal inputs give byte-identical
serialised URLs. -/
theorem c9_builder_deterministic (cy1 cy2 : Int) (a1 a2 : BuildArgs)
    (hy : cy1 = cy2) (ha : a1 = a2) :
    urlToString (buildQueryURL cy1 a1) = urlToString (buildQueryURL cy2 a2) := by
  rw [hy, ha]

/-- C9 (witness).  Two invocations on an identical concrete input and year
serialise identically. -/
theorem c9_builder_deterministic_witness :
    urlToString (buildQueryURL 2025
        ⟨"mrna vaccine", some 2015, some 2024, some "Review"⟩) =
      urlToString (buildQueryURL 2025
        ⟨"mrna vaccine", some 2015, some 2024, some "Review"⟩) :=
  c9_builder_deterministic 2025 2025
    ⟨"mrna vaccine", some 2015, some 2024, some "Review"⟩
    ⟨"mrna vaccine", some 2015, some 2024, some "Review"⟩ rfl rfl

/-- C10 (counterexample).  The claim says every year string with a decimal
integer prefix is parsed and used as a year bound.  `startYear = "0abc"`
parses to `0`, but `0` is falsy in the emission test, so with `endYear`
absent no year bound appears in the filter at all. -/
theorem c10_zero_prefix_counterexample :
    jsParseInt "0abc" = some 0 ∧
    getParam (postURL 2025 ⟨some "malaria", some "0abc", none, none⟩)
      "filter" = none := by
  exact ⟨by decide, rfl⟩

/-- C10 (amended).  A year string with a decimal integer prefix parses to
that integer; whenever the parsed integer is nonzero it is used as the
`startYear` bound, the first filter clause being `year>=<n>`.  A parsed `0`
is falsy, so it triggers no year filter of its own (though it is still used
as the bound, not the default, when the other bound triggers emission);
strings with no leading integer prefix are treated as absent. -/
theorem c10_integer_prefix_amended (cy : Int) (p : Payload) (s : String)
    (n : Int) (hs : p.startYear = some s) (hn : jsParseInt s = some n)
    (h0 : ¬ (n = 0)) :
    (buildFilters cy (argsOfPayload p)).head? =
      some ("year>=" ++ toString n) := by
  have hsE : s.isEmpty = false := by
    cases he : s.isEmpty
    · rfl
    · rw [(String.isEmpty_iff s).mp he] at hn
      rw [show jsParseInt "" = (none : Option Int) from rfl] at hn
      exact Option.noConfusion hn
  have hpy : parsedYear p.startYear = some n := by
    simp [parsedYear, hs, hsE, hn]
  have hnt : numTruthy (some n) = true := by
    simp [numTruthy, h0]
  simp [buildFilters, argsOfPayload, hpy, hnt]

/-- C10 (witness).  `startYear = "2010abc"` yields the bound `year>=2010` as
the first filter clause. -/
theorem c10_integer_prefix_amended_witness :
    (buildFilters 2025
        (argsOfPayload ⟨some "hiv", some "2010abc", none, none⟩)).head? =
      some "year>=2010" :=
  (c10_integer_prefix_amended 2025 ⟨some "hiv", some "2010abc", none, none⟩
      "2010abc" 2010 rfl (by decide) (by decide)).trans (by decide)
